import Mathlib

/-!
Verification of the `rsdexcom` client library (`src/lib.rs`, `src/client.rs`).

The library drives a three-call HTTP workflow against the Dexcom share
service.  We shallowly embed the code: JSON documents become an inductive
`Json` value (numbers are modelled as integers, the only kind the decoded
types use); the serde-derived deserializers of the crate's types become
explicit `Json → Option _` decoders that mirror serde's field renames,
unknown-field tolerance and `Option` defaulting; the injected transport
(`client::Client::request`) becomes an oracle from call index to outcome;
`post_request` and the public operations become functions of that oracle
which also report the list of HTTP requests they issued.  The possible
panic in `&buf[..size]` is made explicit by an `Option` at the top of each
operation's result (`none` = panic).
-/

set_option autoImplicit false

namespace Rsdexcom

/-- JSON values, as produced by `serde_json` parsing.  Numbers are modelled
as integers: every numeric field of the crate's types (`Value : i32`,
`minutes : u32`, `max_count : u32`) is integral. -/
inductive Json where
  | null
  | bool (b : Bool)
  | num (n : Int)
  | str (s : String)
  | arr (xs : List Json)
  | obj (fields : List (String × Json))

/-- `Trend` from `src/lib.rs` lines 10-21: the ten unit variants, in source
order. -/
inductive Trend where
  | None
  | DoubleUp
  | SingleUp
  | FortyFiveUp
  | Flat
  | FortyFiveDown
  | SingleDown
  | DoubleDown
  | NotComputable
  | RateOutOfRange
deriving DecidableEq, Repr

/-- The `Display` impl for `Trend` (`src/lib.rs` lines 23-38): fixed glyph
per variant. -/
def Trend.display : Trend → String
  | .None => "-"
  | .DoubleUp => "↑↑"
  | .SingleUp => "↑"
  | .FortyFiveUp => "↗"
  | .Flat => "→"
  | .FortyFiveDown => "↘"
  | .SingleDown => "↓"
  | .DoubleDown => "↓↓"
  | .NotComputable => "?"
  | .RateOutOfRange => "!"

/-- The serde variant name of each `Trend` variant (serde's derived
`Deserialize` matches unit variants by their Rust identifier). -/
def trendName : Trend → String
  | .None => "None"
  | .DoubleUp => "DoubleUp"
  | .SingleUp => "SingleUp"
  | .FortyFiveUp => "FortyFiveUp"
  | .Flat => "Flat"
  | .FortyFiveDown => "FortyFiveDown"
  | .SingleDown => "SingleDown"
  | .DoubleDown => "DoubleDown"
  | .NotComputable => "NotComputable"
  | .RateOutOfRange => "RateOutOfRange"

/-- serde_json deserialization of `Trend` (`#[derive(Deserialize)]`, no serde
attributes).  serde_json's `deserialize_enum` accepts only a JSON string
(unit variant by name) or a JSON map (newtype/struct variants); any other
JSON value — in particular a number, despite `#[repr(u8)]` — is a type
error.  `Trend` has only unit variants, so only the string form decodes. -/
def decodeTrend : Json → Option Trend
  | .str s =>
    if s = "None" then some .None
    else if s = "DoubleUp" then some .DoubleUp
    else if s = "SingleUp" then some .SingleUp
    else if s = "FortyFiveUp" then some .FortyFiveUp
    else if s = "Flat" then some .Flat
    else if s = "FortyFiveDown" then some .FortyFiveDown
    else if s = "SingleDown" then some .SingleDown
    else if s = "DoubleDown" then some .DoubleDown
    else if s = "NotComputable" then some .NotComputable
    else if s = "RateOutOfRange" then some .RateOutOfRange
    else none
  | _ => none

/-- `DexcomError` from `src/lib.rs` lines 42-52 (source variant names kept,
including the `AuthenticateMaxAttempsExceed` spelling). -/
inductive DexcomError where
  | AccountPasswordInvalid
  | AuthenticateMaxAttempsExceed
  | SessionNotFound
  | SessionInvalid
  | InvalidUsername
  | InvalidPassword
  | InvalidAccountId
  | InvalidUnknown
  | Unknown
deriving DecidableEq, Repr

/-- `GlucosReading` from `src/lib.rs` lines 89-94 (source spelling kept):
`value : i32` (modelled as `Int`, range-checked at decode time) and
`trend : Trend`. -/
structure GlucosReading where
  value : Int
  trend : Trend
deriving DecidableEq, Repr

/-- serde deserialization of an `i32` field: a JSON number in `i32` range;
anything else errors. -/
def decodeI32 : Json → Option Int
  | .num n => if -(2 ^ 31) ≤ n ∧ n < 2 ^ 31 then some n else none
  | _ => none

/-- serde_json deserialization of `GlucosReading`: an object with required
fields read from keys `"Value"` (renamed) and `"Trend"` (renamed); unknown
keys are ignored; a missing required field is an error. -/
def decodeReading : Json → Option GlucosReading
  | .obj fields =>
    match fields.lookup "Value", fields.lookup "Trend" with
    | some vj, some tj =>
      match decodeI32 vj, decodeTrend tj with
      | some v, some t => some ⟨v, t⟩
      | _, _ => none
    | _, _ => none
  | _ => none

/-- serde_json deserialization of `[GlucosReading; 1]`, the success type of
`get_current_glucose_reading`: a JSON array with exactly one element.  A
fixed-size one-element array is represented by its single element. -/
def decodeReadings1 : Json → Option GlucosReading
  | .arr [x] => decodeReading x
  | _ => none

/-- serde_json deserialization of a `String` payload (the account-id and
session-id responses). -/
def decodeString : Json → Option String
  | .str s => some s
  | _ => none

/-- `DexcomErrorResponse` from `src/lib.rs` lines 96-101: field `code` is
renamed to JSON key `"Code"`; field `message` carries NO rename attribute,
so serde reads it from JSON key `"message"` (lower-case). -/
structure DexcomErrorResponse where
  code : Option String
  message : Option String
deriving DecidableEq, Repr

/-- serde deserialization of an `Option<&str>` field found (or not) under a
key: absent or `null` gives `none`; a string gives `some`; any other JSON
value is an error. -/
def decodeOptStrField (fields : List (String × Json)) (key : String) :
    Option (Option String) :=
  match fields.lookup key with
  | Option.none => some none
  | some .null => some none
  | some (.str s) => some (some s)
  | some _ => none

/-- serde_json deserialization of `DexcomErrorResponse`: `code` from key
`"Code"`, `message` from key `"message"` (the field is not renamed in the
source); unknown keys — including a capital-M `"Message"` — are ignored. -/
def decodeDexcomErrorResponse : Json → Option DexcomErrorResponse
  | .obj fields =>
    match decodeOptStrField fields "Code", decodeOptStrField fields "message" with
    | some c, some m => some ⟨c, m⟩
    | _, _ => none
  | _ => none

/-- Whether `p` is a prefix of `h`, on character lists. -/
def isPrefixList : List Char → List Char → Bool
  | [], _ => true
  | _ :: _, [] => false
  | p :: ps, h :: hs => p == h && isPrefixList ps hs

/-- Whether `pat` occurs as a contiguous run of `hay`: it is a prefix of
some suffix. -/
def charsContain : List Char → List Char → Bool
  | [], pat => pat.isEmpty
  | h :: t, pat => isPrefixList pat (h :: t) || charsContain t pat

/-- Rust `str::contains(pattern)` for the non-empty literal patterns used in
the source: case-sensitive contiguous-substring search. -/
def strContains (hay pat : String) : Bool :=
  charsContain hay.data pat.data

/-- `From<DexcomErrorResponse> for DexcomError` (`src/lib.rs` lines
103-133): match on the code string, and for `"InvalidArgument"` a
case-sensitive first-match substring search on the message. -/
def dexcomErrorOfResponse (val : DexcomErrorResponse) : DexcomError :=
  match val.code with
  | Option.none => .Unknown
  | some code =>
    if code = "SessionIdNotFound" then .SessionNotFound
    else if code = "SessionNotValid" then .SessionInvalid
    else if code = "AccountPasswordInvalid" then .AccountPasswordInvalid
    else if code = "SSO_AuthenticateMaxAttemptsExceeed" then
      .AuthenticateMaxAttempsExceed
    else if code = "InvalidArgument" then
      match val.message with
      | Option.none => .InvalidUnknown
      | some message =>
        if strContains message "accountName" then .InvalidUsername
        else if strContains message "password" then .InvalidPassword
        else if strContains message "UUID" then .InvalidAccountId
        else .InvalidUnknown
    else .Unknown

/-! ## Endpoints

`src/lib.rs` lines 272-290 define the three endpoint constants twice, under
`#[cfg(feature = "ous")]` and `#[cfg(not(feature = "ous"))]`.  The build-time
region flag is modelled as a `Bool` argument (`true` = the `ous`,
outside-the-US build). -/

def DEXCOM_GLUCOSE_READINGS_ENDPOINT (ous : Bool) : String :=
  if ous then
    "https://shareous1.dexcom.com/ShareWebServices/Services/Publisher/ReadPublisherLatestGlucoseValues"
  else
    "https://share2.dexcom.com/ShareWebServices/Services/Publisher/ReadPublisherLatestGlucoseValues"

def DEXCOM_LOGIN_ID_ENDPOINT (ous : Bool) : String :=
  if ous then
    "https://shareous1.dexcom.com/ShareWebServices/Services/General/LoginPublisherAccountById"
  else
    "https://share2.dexcom.com/ShareWebServices/Services/General/LoginPublisherAccountById"

def DEXCOM_AUTHENTICATE_ENDPOINT (ous : Bool) : String :=
  if ous then
    "https://shareous1.dexcom.com/ShareWebServices/Services/General/AuthenticatePublisherAccount"
  else
    "https://share2.dexcom.com/ShareWebServices/Services/General/AuthenticatePublisherAccount"

/-- Modelled from the spec: the base domain each endpoint set is claimed to
share (`share2.dexcom.com` by default, `shareous1.dexcom.com` outside the
US).  This follows the spec's wording so it can be compared with the
endpoint constants taken from the source. -/
def specBaseDomain (ous : Bool) : String :=
  if ous then "shareous1.dexcom.com" else "share2.dexcom.com"

/-! ## Transport and `post_request` -/

/-- An HTTP request as handed to `client::Client::request`: method, URI,
headers, and the JSON body produced by `serde_json::to_vec` (represented at
the `Json` level; serialization of the three request structs cannot
fail). -/
structure HttpRequest where
  method : String
  uri : String
  headers : List (String × String)
  body : Json

/-- The fixed header list of `post_request` (`src/lib.rs` lines 187-190). -/
def requestHeaders : List (String × String) :=
  [("Content-Type", "application/json"), ("User-Agent", "rsdexcom/0.0.1")]

/-- One outcome of a call to the injected transport: either a connection
error, or `Ok((size, status_code))` together with the contents of the
512-byte buffer after the transport wrote into it. -/
inductive ClientOutcome where
  | connErr
  | resp (bufAfter : List Nat) (size : Nat) (status : Nat)

/-- `ClientError` from `src/lib.rs` lines 144-149, with opaque payloads
dropped: the transport error and the `serde_json::Error` carry no
information the claims inspect. -/
inductive RunError where
  | ConnectionError
  | DexcomError (e : DexcomError)
  | JSONError
deriving DecidableEq, Repr

/-- `let buf = &buf[..size]` (`src/lib.rs` line 195): well-defined only when
`size` is at most the buffer length (512); otherwise Rust panics, modelled
as `none`. -/
def sliceBuf (bufAfter : List Nat) (size : Nat) : Option (List Nat) :=
  if size ≤ bufAfter.length then some (bufAfter.take size) else none

/-- The status-code dispatch of `post_request` (`src/lib.rs` lines 200-211)
on the sliced response bytes.  `parse` is serde_json's text-to-value stage
(an external library, kept abstract); a parse failure and a decode failure
are both `serde_json` errors.  On `200..=299` the bytes must decode as the
success type `D`; otherwise they must decode as `DexcomErrorResponse`,
whose conversion becomes the domain error. -/
def postRequestDecode {D : Type} (parse : List Nat → Option Json)
    (decode : Json → Option D) (status : Nat) (bytes : List Nat) :
    Except RunError D :=
  match parse bytes with
  | Option.none => .error .JSONError
  | some j =>
    if 200 ≤ status ∧ status ≤ 299 then
      match decode j with
      | Option.none => .error .JSONError
      | some d => .ok d
    else
      match decodeDexcomErrorResponse j with
      | Option.none => .error .JSONError
      | some er => .error (.DexcomError (dexcomErrorOfResponse er))

/-- `Dexcom::post_request` (`src/lib.rs` lines 176-212) applied to one
transport outcome: a connection error is propagated as
`ClientError::ConnectionError`; otherwise the 512-byte buffer is sliced to
the reported size (`none` = the slice panicked) and handed to the
status-code dispatch. -/
def postRequest {D : Type} (parse : List Nat → Option Json)
    (decode : Json → Option D) (outcome : ClientOutcome) :
    Option (Except RunError D) :=
  match outcome with
  | .connErr => some (.error .ConnectionError)
  | .resp bufAfter size status =>
    match sliceBuf bufAfter size with
    | Option.none => none
    | some bytes => some (postRequestDecode parse decode status bytes)

/-! ## The three operations

Each operation is a function of the abstract parse stage, the region flag,
its string arguments, and an oracle giving the transport's outcome for each
successive call.  Besides its result (`none` = panic) it reports the list
of HTTP requests it issued, in order. -/

/-- The request built by `get_account_id` (`src/lib.rs` lines 239-253):
POST to the authenticate endpoint with the serialized
`GetAccountIdRequest` (serde renames: `accountName`, `applicationId`). -/
def accountIdRequest (an pw ai : String) (ous : Bool) : HttpRequest :=
  ⟨"POST", DEXCOM_AUTHENTICATE_ENDPOINT ous, requestHeaders,
    .obj [("accountName", .str an), ("password", .str pw),
          ("applicationId", .str ai)]⟩

/-- The request built by `get_session_id` (`src/lib.rs` lines 255-269):
POST to the login-by-account-id endpoint with the serialized
`GetSessionIdRequest`. -/
def sessionIdRequest (aid pw ai : String) (ous : Bool) : HttpRequest :=
  ⟨"POST", DEXCOM_LOGIN_ID_ENDPOINT ous, requestHeaders,
    .obj [("accountId", .str aid), ("password", .str pw),
          ("applicationId", .str ai)]⟩

/-- The request built by `get_current_glucose_reading` (`src/lib.rs` lines
214-226): POST to the glucose-readings endpoint with the serialized
`GetLatestGlucoseValuesRequest`, whose `minutes` field is the literal `10`
and whose `max_count` field (serialized as `maxCount`) is the literal `1`. -/
def glucoseRequest (sid : String) (ous : Bool) : HttpRequest :=
  ⟨"POST", DEXCOM_GLUCOSE_READINGS_ENDPOINT ous, requestHeaders,
    .obj [("sessionId", .str sid), ("minutes", .num 10),
          ("maxCount", .num 1)]⟩

/-- `Dexcom::get_account_id`: one `post_request` decoding a `String`. -/
def getAccountId (parse : List Nat → Option Json) (ous : Bool)
    (an pw ai : String) (outcome : ClientOutcome) :
    Option (Except RunError String) × HttpRequest :=
  (postRequest parse decodeString outcome, accountIdRequest an pw ai ous)

/-- `Dexcom::get_session_id`: one `post_request` decoding a `String`. -/
def getSessionId (parse : List Nat → Option Json) (ous : Bool)
    (aid pw ai : String) (outcome : ClientOutcome) :
    Option (Except RunError String) × HttpRequest :=
  (postRequest parse decodeString outcome, sessionIdRequest aid pw ai ous)

/-- `Dexcom::load_session_id` (`src/lib.rs` lines 228-237):
`get_account_id` followed — only on success, via the `?` operator — by
`get_session_id` on the returned account id; the second call's decoded id
is the result. -/
def loadSessionId (parse : List Nat → Option Json) (ous : Bool)
    (an pw ai : String) (oracle : Nat → ClientOutcome) :
    Option (Except RunError String) × List HttpRequest :=
  let a := getAccountId parse ous an pw ai (oracle 0)
  match a.1 with
  | Option.none => (none, [a.2])
  | some (.error e) => (some (.error e), [a.2])
  | some (.ok aid) =>
    let s := getSessionId parse ous aid pw ai (oracle 1)
    (s.1, [a.2, s.2])

/-- `Dexcom::get_current_glucose_reading` (`src/lib.rs` lines 214-226): one
`post_request` decoding `[GlucosReading; 1]`. -/
def getCurrentGlucoseReading (parse : List Nat → Option Json) (ous : Bool)
    (sid : String) (oracle : Nat → ClientOutcome) :
    Option (Except RunError GlucosReading) × List HttpRequest :=
  (postRequest parse decodeReadings1 (oracle 0), [glucoseRequest sid ous])

/-! ## Helper lemmas -/

theorem decodeTrend_trendName (t : Trend) :
    decodeTrend (Json.str (trendName t)) = some t := by
  cases t <;> rfl

theorem decodeReading_fields (v : Int) (t : Trend)
    (hv : -(2 ^ 31) ≤ v ∧ v < 2 ^ 31) :
    decodeReading (Json.obj [("Value", Json.num v),
        ("Trend", Json.str (trendName t))]) = some ⟨v, t⟩ := by
  have hdi : decodeI32 (Json.num v) = some v := by
    simp only [decodeI32]
    exact if_pos hv
  have h1 : decodeReading (Json.obj [("Value", Json.num v),
      ("Trend", Json.str (trendName t))]) =
      match decodeI32 (Json.num v), decodeTrend (Json.str (trendName t)) with
      | some a, some tt => some ⟨a, tt⟩
      | _, _ => none := rfl
  rw [h1, hdi, decodeTrend_trendName]

theorem sliceBuf_of_le {bufAfter : List Nat} {size : Nat}
    (h : size ≤ bufAfter.length) :
    sliceBuf bufAfter size = some (bufAfter.take size) :=
  if_pos h

/-! ## Claims -/

/-- C1: the body with `Code` equal to `InvalidArgument` and capital-M
`Message` equal to `accountName is required` does NOT yield
`InvalidUsername`: since the `message` field carries no serde rename, the
capital-M key is ignored as an unknown field, `message` decodes to `none`,
and the result is `InvalidUnknown`.  The case-sensitive first-match
substring logic itself holds (and yields `InvalidUsername` here) exactly
when the same body uses the lower-case `message` key. -/
theorem invalidArgument_message_key_mismatch :
    decodeDexcomErrorResponse
      (Json.obj [("Code", Json.str "InvalidArgument"),
                 ("Message", Json.str "accountName is required")]) =
      some ⟨some "InvalidArgument", none⟩ ∧
    dexcomErrorOfResponse ⟨some "InvalidArgument", none⟩ =
      DexcomError.InvalidUnknown ∧
    decodeDexcomErrorResponse
      (Json.obj [("Code", Json.str "InvalidArgument"),
                 ("message", Json.str "accountName is required")]) =
      some ⟨some "InvalidArgument", some "accountName is required"⟩ ∧
    dexcomErrorOfResponse ⟨some "InvalidArgument", some "accountName is required"⟩ =
      DexcomError.InvalidUsername ∧
    DexcomError.InvalidUnknown ≠ DexcomError.InvalidUsername :=
  ⟨rfl, rfl, rfl, by decide, by decide⟩

/-- C2: `load_session_id` performs the two transport calls in order — the
account-id lookup (POST to the authenticate endpoint, the spec's
"account-id endpoint") and then, only if the first call decoded
successfully, the session-id lookup (POST to the login-by-account-id
endpoint) whose decoded id is returned; if the first call fails with any
error, that error is returned and the trace shows the second request was
never issued. -/
theorem loadSessionId_two_calls (parse : List Nat → Option Json) (ous : Bool)
    (an pw ai : String) (oracle : Nat → ClientOutcome) :
    (∀ e, (getAccountId parse ous an pw ai (oracle 0)).1 =
        some (Except.error e) →
      loadSessionId parse ous an pw ai oracle =
        (some (Except.error e), [accountIdRequest an pw ai ous])) ∧
    (∀ aid, (getAccountId parse ous an pw ai (oracle 0)).1 =
        some (Except.ok aid) →
      loadSessionId parse ous an pw ai oracle =
        ((getSessionId parse ous aid pw ai (oracle 1)).1,
         [accountIdRequest an pw ai ous, sessionIdRequest aid pw ai ous])) := by
  constructor
  · intro e he
    simp only [getAccountId] at he
    simp only [loadSessionId, getAccountId, getSessionId, he]
  · intro aid ha
    simp only [getAccountId] at ha
    simp only [loadSessionId, getAccountId, getSessionId, ha]

/-- C2 witness: with a transport whose first call reports a connection
error, `load_session_id` returns that error and issued only the account-id
request. -/
theorem loadSessionId_two_calls_witness :
    loadSessionId (fun _ => none) false "u" "p" "a"
        (fun _ => ClientOutcome.connErr) =
      (some (Except.error RunError.ConnectionError),
       [accountIdRequest "u" "p" "a" false]) :=
  (loadSessionId_two_calls (fun _ => none) false "u" "p" "a"
    (fun _ => ClientOutcome.connErr)).1 RunError.ConnectionError rfl

/-- C3: `get_current_glucose_reading` issues exactly one transport call,
whose body fixes `minutes` to 10 and `maxCount` to 1 regardless of the
session id, and on a 2xx response parsing to a one-element array it
returns the single decoded element. -/
theorem getCurrentGlucoseReading_one_call (parse : List Nat → Option Json)
    (ous : Bool) (sid : String) (oracle : Nat → ClientOutcome) :
    (getCurrentGlucoseReading parse ous sid oracle).2 =
      [glucoseRequest sid ous] ∧
    (glucoseRequest sid ous).body =
      Json.obj [("sessionId", Json.str sid), ("minutes", Json.num 10),
                ("maxCount", Json.num 1)] ∧
    (∀ bufAfter size status x r,
      oracle 0 = ClientOutcome.resp bufAfter size status →
      size ≤ bufAfter.length →
      200 ≤ status → status ≤ 299 →
      parse (bufAfter.take size) = some (Json.arr [x]) →
      decodeReading x = some r →
      (getCurrentGlucoseReading parse ous sid oracle).1 =
        some (Except.ok r)) := by
  refine ⟨rfl, rfl, ?_⟩
  intro bufAfter size status x r h0 hlen h1 h2 hp hr
  simp only [getCurrentGlucoseReading, h0, postRequest, sliceBuf_of_le hlen,
    postRequestDecode, hp, h1, h2, and_self, if_true, decodeReadings1, hr]

/-- C3 witness: a 2xx response parsing to the one-element array holding the
reading with value 153 and trend Flat yields that reading. -/
theorem getCurrentGlucoseReading_one_call_witness :
    (getCurrentGlucoseReading
        (fun _ => some (Json.arr [Json.obj [("Value", Json.num 153),
          ("Trend", Json.str "Flat")]]))
        false "sid"
        (fun _ => ClientOutcome.resp (List.replicate 512 0) 0 200)).1 =
      some (Except.ok ⟨153, Trend.Flat⟩) :=
  (getCurrentGlucoseReading_one_call
    (fun _ => some (Json.arr [Json.obj [("Value", Json.num 153),
      ("Trend", Json.str "Flat")]]))
    false "sid"
    (fun _ => ClientOutcome.resp (List.replicate 512 0) 0 200)).2.2
    (List.replicate 512 0) 0 200
    (Json.obj [("Value", Json.num 153), ("Trend", Json.str "Flat")])
    ⟨153, Trend.Flat⟩ rfl (Nat.zero_le _) (by decide) (by decide) rfl rfl

/-- C4: on a 2xx response whose body is not a one-element readings array
(in particular an empty array, which never decodes), the glucose operation
returns the JSON error — it does not panic (the result is a `some`), does
not return a domain error, and does not succeed. -/
theorem glucose_bad_array_json_error (parse : List Nat → Option Json)
    (ous : Bool) (sid : String) (oracle : Nat → ClientOutcome)
    (bufAfter : List Nat) (size status : Nat)
    (h0 : oracle 0 = ClientOutcome.resp bufAfter size status)
    (hlen : size ≤ bufAfter.length) (h1 : 200 ≤ status) (h2 : status ≤ 299)
    (hbad : ∀ j, parse (bufAfter.take size) = some j →
      decodeReadings1 j = none) :
    (getCurrentGlucoseReading parse ous sid oracle).1 =
      some (Except.error RunError.JSONError) ∧
    decodeReadings1 (Json.arr []) = none := by
  refine ⟨?_, rfl⟩
  simp only [getCurrentGlucoseReading, h0, postRequest, sliceBuf_of_le hlen]
  cases hpj : parse (bufAfter.take size) with
  | none => simp [postRequestDecode, hpj]
  | some j => simp [postRequestDecode, hpj, h1, h2, hbad j hpj]

/-- C4 witness: a 200 response parsing to the empty array yields the JSON
error. -/
theorem glucose_bad_array_json_error_witness :
    (getCurrentGlucoseReading (fun _ => some (Json.arr [])) false "sid"
        (fun _ => ClientOutcome.resp (List.replicate 512 0) 0 200)).1 =
      some (Except.error RunError.JSONError) :=
  (glucose_bad_array_json_error (fun _ => some (Json.arr [])) false "sid"
    (fun _ => ClientOutcome.resp (List.replicate 512 0) 0 200)
    (List.replicate 512 0) 0 200 rfl (Nat.zero_le _) (by decide) (by decide)
    (fun j hj => by
      simp only [Option.some.injEq] at hj
      subst hj
      rfl)).1

/-- C5 counterexample: the serde-derived `Trend` decoder rejects the
numeric encoding — a JSON number (here 4, the index of `Flat`) does not
decode to any `Trend` variant, contradicting the claim that `Trend`
decodes from the server's numeric encoding. -/
theorem trend_numeric_counterexample :
    decodeTrend (Json.num 4) = none ∧ decodeTrend (Json.num 0) = none :=
  ⟨rfl, rfl⟩

/-- C5 (amended): `Trend` decodes from the server's string encoding (the
variant name) only, and a valid 2xx body of the expected shape decodes to
exactly its field values — in particular the body with `Value` 153 and
`Trend` the string `Flat` decodes to the reading with value 153 and trend
`Flat`. -/
theorem trend_string_decoding (v : Int) (t : Trend)
    (hv : -(2 ^ 31) ≤ v ∧ v < 2 ^ 31) :
    decodeTrend (Json.str (trendName t)) = some t ∧
    decodeReading (Json.obj [("Value", Json.num v),
        ("Trend", Json.str (trendName t))]) = some ⟨v, t⟩ ∧
    decodeReading (Json.obj [("Value", Json.num 153),
        ("Trend", Json.str "Flat")]) = some ⟨153, Trend.Flat⟩ :=
  ⟨decodeTrend_trendName t, decodeReading_fields v t hv, rfl⟩

/-- C5 witness: the amended statement at value 153 and trend `Flat`. -/
theorem trend_string_decoding_witness :
    decodeTrend (Json.str (trendName Trend.Flat)) = some Trend.Flat ∧
    decodeReading (Json.obj [("Value", Json.num 153),
        ("Trend", Json.str (trendName Trend.Flat))]) =
      some ⟨153, Trend.Flat⟩ ∧
    decodeReading (Json.obj [("Value", Json.num 153),
        ("Trend", Json.str "Flat")]) = some ⟨153, Trend.Flat⟩ :=
  trend_string_decoding 153 Trend.Flat (by decide)

/-- C6: on a status in 200..299 whose body does not decode as the expected
success type (for any success type and decoder), `post_request` fails with
the JSON (serialization) error — never a domain error — and the single
outcome is propagated as is. -/
theorem postRequest_2xx_unparsable {D : Type} (parse : List Nat → Option Json)
    (decode : Json → Option D) (bufAfter : List Nat) (size status : Nat)
    (hlen : size ≤ bufAfter.length) (h1 : 200 ≤ status) (h2 : status ≤ 299)
    (hbad : ∀ j, parse (bufAfter.take size) = some j → decode j = none) :
    postRequest parse decode (ClientOutcome.resp bufAfter size status) =
      some (Except.error RunError.JSONError) := by
  simp only [postRequest, sliceBuf_of_le hlen]
  cases hpj : parse (bufAfter.take size) with
  | none => simp [postRequestDecode, hpj]
  | some j => simp [postRequestDecode, hpj, h1, h2, hbad j hpj]

/-- C6 witness: a 200 response whose body parses to a JSON number cannot
decode as the expected id string, so the result is the JSON error. -/
theorem postRequest_2xx_unparsable_witness :
    postRequest (fun _ => some (Json.num 0)) decodeString
        (ClientOutcome.resp (List.replicate 512 0) 0 200) =
      some (Except.error RunError.JSONError) :=
  postRequest_2xx_unparsable (fun _ => some (Json.num 0)) decodeString
    (List.replicate 512 0) 0 200 (Nat.zero_le _) (by decide) (by decide)
    (fun j hj => by
      simp only [Option.some.injEq] at hj
      subst hj
      rfl)

/-- C7 counterexample: the code string `InvalidArgument` is other than the
four codes the claim lists, yet it maps to `InvalidUnknown`, not to
`Unknown` as the claim's catch-all demands. -/
theorem invalidArgument_not_unknown_counterexample :
    dexcomErrorOfResponse ⟨some "InvalidArgument", some "zzz"⟩ =
      DexcomError.InvalidUnknown ∧
    DexcomError.InvalidUnknown ≠ DexcomError.Unknown := by
  exact ⟨by decide, by decide⟩

/-- C7 (amended): on a status outside 200..299 whose body decodes as the
error shape, `post_request` fails with the mapped domain error, never
succeeding; the code maps per the fixed table — `SessionIdNotFound` to
`SessionNotFound`, `SessionNotValid` to `SessionInvalid`,
`AccountPasswordInvalid` to `AccountPasswordInvalid`,
`SSO_AuthenticateMaxAttemptsExceeed` to the max-attempts-exceeded error —
and any other or absent code maps to `Unknown`, except `InvalidArgument`,
which maps into the InvalidUsername/InvalidPassword/InvalidAccountId/
InvalidUnknown family by message. -/
theorem non2xx_domain_error_mapping {D : Type} (parse : List Nat → Option Json)
    (decode : Json → Option D) (bufAfter : List Nat) (size status : Nat)
    (j : Json) (er : DexcomErrorResponse)
    (hlen : size ≤ bufAfter.length)
    (hst : ¬(200 ≤ status ∧ status ≤ 299))
    (hp : parse (bufAfter.take size) = some j)
    (hd : decodeDexcomErrorResponse j = some er) :
    postRequest parse decode (ClientOutcome.resp bufAfter size status) =
      some (Except.error (RunError.DexcomError (dexcomErrorOfResponse er))) ∧
    (∀ m, dexcomErrorOfResponse ⟨some "SessionIdNotFound", m⟩ =
      DexcomError.SessionNotFound) ∧
    (∀ m, dexcomErrorOfResponse ⟨some "SessionNotValid", m⟩ =
      DexcomError.SessionInvalid) ∧
    (∀ m, dexcomErrorOfResponse ⟨some "AccountPasswordInvalid", m⟩ =
      DexcomError.AccountPasswordInvalid) ∧
    (∀ m, dexcomErrorOfResponse ⟨some "SSO_AuthenticateMaxAttemptsExceeed", m⟩ =
      DexcomError.AuthenticateMaxAttempsExceed) ∧
    (∀ m, dexcomErrorOfResponse ⟨none, m⟩ = DexcomError.Unknown) ∧
    (∀ c m, c ≠ "SessionIdNotFound" → c ≠ "SessionNotValid" →
      c ≠ "AccountPasswordInvalid" → c ≠ "SSO_AuthenticateMaxAttemptsExceeed" →
      c ≠ "InvalidArgument" →
      dexcomErrorOfResponse ⟨some c, m⟩ = DexcomError.Unknown) := by
  refine ⟨?_, fun m => rfl, fun m => rfl, fun m => rfl, fun m => rfl,
    fun m => rfl, ?_⟩
  · simp only [postRequest, sliceBuf_of_le hlen, postRequestDecode, hp,
      if_neg hst, hd]
  · intro c m hc1 hc2 hc3 hc4 hc5
    simp [dexcomErrorOfResponse, hc1, hc2, hc3, hc4, hc5]

/-- C7 witness: a 500 response with body carrying code `SessionIdNotFound`
fails with domain error `SessionNotFound`. -/
theorem non2xx_domain_error_mapping_witness :
    postRequest (fun _ => some (Json.obj [("Code", Json.str "SessionIdNotFound")]))
        decodeString (ClientOutcome.resp (List.replicate 512 0) 0 500) =
      some (Except.error (RunError.DexcomError DexcomError.SessionNotFound)) :=
  (non2xx_domain_error_mapping
    (fun _ => some (Json.obj [("Code", Json.str "SessionIdNotFound")]))
    decodeString (List.replicate 512 0) 0 500
    (Json.obj [("Code", Json.str "SessionIdNotFound")])
    ⟨some "SessionIdNotFound", none⟩
    (Nat.zero_le _) (by decide) rfl rfl).1

/-- C8: for either value of the build-time region flag, the three endpoint
constants are `https://` followed by the set's base domain
(`shareous1.dexcom.com` for the outside-the-US build, `share2.dexcom.com`
by default) followed by a path that does not depend on the flag. -/
theorem endpoint_sets_differ_only_in_domain (ous : Bool) :
    DEXCOM_GLUCOSE_READINGS_ENDPOINT ous =
      "https://" ++ specBaseDomain ous ++
        "/ShareWebServices/Services/Publisher/ReadPublisherLatestGlucoseValues" ∧
    DEXCOM_LOGIN_ID_ENDPOINT ous =
      "https://" ++ specBaseDomain ous ++
        "/ShareWebServices/Services/General/LoginPublisherAccountById" ∧
    DEXCOM_AUTHENTICATE_ENDPOINT ous =
      "https://" ++ specBaseDomain ous ++
        "/ShareWebServices/Services/General/AuthenticatePublisherAccount" ∧
    specBaseDomain true = "shareous1.dexcom.com" ∧
    specBaseDomain false = "share2.dexcom.com" := by
  cases ous <;> exact ⟨rfl, rfl, rfl, rfl, rfl⟩

/-- C9: with the 512-byte buffer and a reported size of at most 512, the
slice never panics and yields exactly the first `size` bytes; at most 512
bytes are ever decoded; `post_request` reduces to the decode of those
bytes (so it does not panic); and any buffer contents agreeing on the
first `size` bytes give the same result — the rest of the buffer is
ignored. -/
theorem postRequest_buffer_discipline {D : Type} (parse : List Nat → Option Json)
    (decode : Json → Option D) (bufAfter : List Nat) (size status : Nat)
    (hlen : bufAfter.length = 512) (hsize : size ≤ 512) :
    sliceBuf bufAfter size = some (bufAfter.take size) ∧
    (bufAfter.take size).length ≤ 512 ∧
    postRequest parse decode (ClientOutcome.resp bufAfter size status) =
      some (postRequestDecode parse decode status (bufAfter.take size)) ∧
    (∀ bufAfter2 : List Nat, bufAfter2.take size = bufAfter.take size →
      postRequest parse decode (ClientOutcome.resp bufAfter2 size status) =
        postRequest parse decode (ClientOutcome.resp bufAfter size status)) := by
  have hle : size ≤ bufAfter.length := hlen ▸ hsize
  have hslice := sliceBuf_of_le hle
  refine ⟨hslice, ?_, ?_, ?_⟩
  · have h : (bufAfter.take size).length = min size 512 := by
      rw [List.length_take, hlen]
    rw [h]
    exact Nat.min_le_right _ _
  · simp only [postRequest, hslice]
  · intro bufAfter2 h
    have hlh := congrArg List.length h
    rw [List.length_take, List.length_take, hlen, Nat.min_eq_left hsize] at hlh
    have hl2 : size ≤ bufAfter2.length := min_eq_left_iff.mp hlh
    simp only [postRequest, hslice, sliceBuf_of_le hl2, h]

/-- C9 witness: a 512-byte buffer with reported size 3 slices to its first
three bytes. -/
theorem postRequest_buffer_discipline_witness :
    sliceBuf (List.replicate 512 0) 3 = some ((List.replicate 512 0).take 3) :=
  (postRequest_buffer_discipline (fun _ => none) decodeString
    (List.replicate 512 0) 3 200 (List.length_replicate 512 0) (by decide)).1

/-- C10: the operations are deterministic in their arguments and the
transport's observable behaviour: two runs with equal inputs whose
transports return equal outcomes for the calls the operation makes give
equal results and equal request traces — the embedding holds no client
state beyond the oracle. -/
theorem operations_deterministic (parse : List Nat → Option Json) (ous : Bool)
    (an pw ai sid : String) (o1 o2 : Nat → ClientOutcome)
    (h0 : o1 0 = o2 0) (h1 : o1 1 = o2 1) :
    loadSessionId parse ous an pw ai o1 = loadSessionId parse ous an pw ai o2 ∧
    getCurrentGlucoseReading parse ous sid o1 =
      getCurrentGlucoseReading parse ous sid o2 := by
  constructor
  · unfold loadSessionId
    rw [h0, h1]
  · unfold getCurrentGlucoseReading
    rw [h0]

/-- C10 witness: the determinism theorem applied to two syntactically equal
transports. -/
theorem operations_deterministic_witness :
    loadSessionId (fun _ => none) false "u" "p" "a"
        (fun _ => ClientOutcome.connErr) =
      loadSessionId (fun _ => none) false "u" "p" "a"
        (fun _ => ClientOutcome.connErr) :=
  (operations_deterministic (fun _ => none) false "u" "p" "a" "s"
    (fun _ => ClientOutcome.connErr) (fun _ => ClientOutcome.connErr)
    rfl rfl).1

end Rsdexcom
